import Mathlib

/-!
Verification development for the quantum-reservoir-computing pipeline
(source files: src/main.py, src/models.py).

Shallow embedding conventions:
  * Matrices are lists of rows of rationals (`Mat`).
  * The ambient global pseudo-random generator state (Python seeds it
    globally in main.py lines 50-52 via random.seed / np.random.seed /
    torch.manual_seed) is modelled as an explicit `Nat` state threaded
    through every randomness-consuming operation, since the embedding has
    no mutable global state.
  * Code of the repository that is not under src/ (qrc_layer.py,
    feature_reduction.py, training.py) is modelled from the spec; every
    such definition carries a doc comment starting with
    "Modelled from the spec:".
-/

namespace QRC

/-- Matrices are lists of rows of rationals. -/
abbrev Mat := List (List ℚ)

/-! ## Call sites of apply_layer

The program contains exactly four calls to `apply_layer`:
  * main.py:283-287  `quantum_layer.apply_layer(x=xs, n_shots=args.n_shots, show_progress=not args.no_progress)`
  * main.py:290-294  `quantum_layer.apply_layer(test_features, n_shots=args.n_shots, show_progress=not args.no_progress)`
  * models.py:163    `self.quantum_layer.apply_layer(x_train)`
  * models.py:166    `self.quantum_layer.apply_layer(x_test)`
-/

/-- One call site of `apply_layer` in the source, recording which of the
three parameters of the documented signature receives an argument at that
call, and whether any explicit random-source handle is passed. -/
structure ApplyLayerCallSite where
  file : String
  line : Nat
  suppliesX : Bool
  suppliesNShots : Bool
  suppliesShowProgress : Bool
  suppliesRngHandle : Bool
deriving DecidableEq, Repr

/-- The four `apply_layer` call sites of the program, transcribed from
main.py lines 283-294 and models.py lines 163-166. -/
def applyLayerCallSites : List ApplyLayerCallSite :=
  [ { file := "src/main.py", line := 283, suppliesX := true,
      suppliesNShots := true, suppliesShowProgress := true,
      suppliesRngHandle := false },
    { file := "src/main.py", line := 290, suppliesX := true,
      suppliesNShots := true, suppliesShowProgress := true,
      suppliesRngHandle := false },
    { file := "src/models.py", line := 163, suppliesX := true,
      suppliesNShots := false, suppliesShowProgress := false,
      suppliesRngHandle := false },
    { file := "src/models.py", line := 166, suppliesX := true,
      suppliesNShots := false, suppliesShowProgress := false,
      suppliesRngHandle := false } ]

/-- Parameter names of the documented signature of `apply_layer`
(spec section 6: `apply_layer(x: matrix[M,N], n_shots: int, show_progress: bool)`). -/
def applyLayerSignatureParams : List String :=
  ["x", "n_shots", "show_progress"]

/-- One operation the quantum layer exposes to collaborators, tagged with
whether it carries data through the layer. -/
structure LayerEntryPoint where
  name : String
  dataBearing : Bool
deriving DecidableEq, Repr

/-- Modelled from the spec: qrc_layer.py is not under src/; spec section 6
lists the operations the quantum layer exposes to collaborators as exactly
the constructor (pure configuration, carrying no data) and apply_layer
(the only data-bearing entry point). -/
def layerEntryPoints : List LayerEntryPoint :=
  [ { name := "construct", dataBearing := false },
    { name := "apply_layer", dataBearing := true } ]

/-! ## Ambient global pseudo-random generator -/

/-- Modelled from the spec: the stochastic measurement sampling of the
Measurement Engine (spec section 4.5, implemented in qrc_layer.py, which is
not under src/) consumes a pseudo-random stream. The ambient global
generator state is one natural number; one step is a linear congruential
update. The exact update law is irrelevant to the claims settled here; what
matters is that each draw advances the state. -/
def rngNext (g : Nat) : Nat := (1103515245 * g + 12345) % 2 ^ 31

/-- Modelled from the spec: one uniform draw in [0, 1) read off the current
generator state. -/
def rngUnit (g : Nat) : ℚ := ((g % 2 ^ 31 : Nat) : ℚ) / 2 ^ 31

/-- Modelled from the source (main.py lines 50-52): main seeds the ambient
global generators once from args.seed; the state after seeding is a
function of the seed alone. -/
def seedRng (seed : Nat) : Nat := rngNext seed

/-! ## Layer configuration and construction (spec sections 3, 4.1, 4.2, 6) -/

/-- The construction parameters of DetuningLayer, transcribed from the
construction calls in main.py lines 173-183 and 263-272. -/
structure LayerConfig where
  geometry : String
  n_atoms : Nat
  lattice_spacing : ℚ
  rabi_freq : ℚ
  t_end : ℚ
  n_steps : Nat
  readout_type : String
  encoding_scale : ℚ
deriving DecidableEq, Repr

/-- Modelled from the spec (section 4.1): chain geometry places atom i at
position i * spacing along one axis. -/
def chainCoords (n : Nat) (s : ℚ) : List (ℚ × ℚ) :=
  (List.range n).map (fun i => ((i : ℚ) * s, 0))

/-- Width of the square lattice that holds n sites (smallest w with
w * w >= n). -/
def gridWidth (n : Nat) : Nat :=
  if Nat.sqrt n * Nat.sqrt n = n then Nat.sqrt n else Nat.sqrt n + 1

/-- Modelled from the spec (section 4.1): square geometry fills a 2D lattice
row-major, truncated to n sites. -/
def squareCoords (n : Nat) (s : ℚ) : List (ℚ × ℚ) :=
  (List.range n).map
    (fun k => (((k % gridWidth n : Nat) : ℚ) * s, ((k / gridWidth n : Nat) : ℚ) * s))

/-- Modelled from the spec (section 4.1): the Geometry Builder returns the
coordinates for a recognized layout and fails on a non-positive atom count
or an unrecognized geometry name. Chain and square are modelled; the other
named layouts of the spec are not needed by any claim. -/
def geometryBuilder (geometry : String) (n : Nat) (s : ℚ) : Option (List (ℚ × ℚ)) :=
  if n = 0 then none
  else if geometry = "chain" then some (chainCoords n s)
  else if geometry = "square" then some (squareCoords n s)
  else none

/-- Squared Euclidean distance between two atom coordinates. -/
def dist2 (p q : ℚ × ℚ) : ℚ := (p.1 - q.1) ^ 2 + (p.2 - q.2) ^ 2

/-- Modelled from the spec (section 4.2): the interaction matrix has zero
diagonal and off-diagonal entries proportional to distance to the power -6
(written through the squared distance cubed, which keeps the value
rational), with the overall coupling derived from the Rabi frequency. -/
def interactionMatrix (rabi : ℚ) (coords : List (ℚ × ℚ)) : List (List ℚ) :=
  (List.range coords.length).map
    (fun i => (List.range coords.length).map
      (fun j => if i = j then 0
        else rabi / (dist2 (coords.getD i (0, 0)) (coords.getD j (0, 0))) ^ 3))

/-- Modelled from the spec (section 3): a DetuningLayer holds its immutable
configuration and the geometry and interaction state precomputed once at
construction. -/
structure DetuningLayer where
  config : LayerConfig
  atomCoords : List (ℚ × ℚ)
  interactions : List (List ℚ)
deriving DecidableEq, Repr

/-- Modelled from the spec and the construction call sites: the DetuningLayer
constructor takes the configuration plus a print_params flag (main.py line
182 passes print_params=False with the comment that there is no need to
print the parameters twice, so the constructor prints its parameters when
the flag is true). The printed output is modelled as the list of
configurations displayed; construction returns none on an invalid
configuration. -/
def DetuningLayer.construct (cfg : LayerConfig) (print_params : Bool) :
    Option DetuningLayer × List LayerConfig :=
  let printed := if print_params then [cfg] else []
  match geometryBuilder cfg.geometry cfg.n_atoms cfg.lattice_spacing with
  | none => (none, printed)
  | some coords =>
    (some { config := cfg, atomCoords := coords,
            interactions := interactionMatrix cfg.rabi_freq coords }, printed)

/-- Modelled from the spec: the construction call at main.py lines 263-272
passes no print_params argument, so the constructor default applies; the
default is true, since main.py line 182 must pass False explicitly to avoid
printing the parameters a second time. -/
def DetuningLayer.constructDefault (cfg : LayerConfig) :
    Option DetuningLayer × List LayerConfig :=
  DetuningLayer.construct cfg true

/-! ## The quantum layer facade (spec sections 4.3-4.6) -/

/-- Modelled from the spec: the Hamiltonian assembly and Schroedinger time
evolution (spec sections 4.3-4.4, implemented in qrc_layer.py, which is not
under src/) are abstracted as a deterministic map from the layer and the
input row to a per-atom excitation probability in [0, 1). The claims
settled against this model concern determinism, the threading of the
random-generator state, shapes, call arguments and immutability, none of
which depend on the numeric law; the map is kept deterministic in the layer
and the row, as the spec requires of the evolution. -/
def excitationProb (layer : DetuningLayer) (row : List ℚ) (i : Nat) : ℚ :=
  let d := row.getD i 0 * layer.config.encoding_scale + layer.config.rabi_freq
  |d| / (1 + |d|)

/-- Modelled from the spec (section 4.5): one shot draws one measurement
outcome per atom, each draw consuming one step of the generator state;
atom i reads excited when the uniform draw falls below its excitation
probability. -/
def sampleShot (layer : DetuningLayer) (row : List ℚ) (g : Nat) :
    List Bool × Nat :=
  (List.range layer.config.n_atoms).foldl
    (fun acc i =>
      (acc.1 ++ [decide (rngUnit acc.2 < excitationProb layer row i)],
       rngNext acc.2))
    ([], g)

/-- Modelled from the spec (section 4.5): n_shots independent shots drawn in
sequence, threading the generator state. -/
def sampleShots (layer : DetuningLayer) (row : List ℚ) (n_shots : Nat) (g : Nat) :
    List (List Bool) × Nat :=
  (List.range n_shots).foldl
    (fun acc _ =>
      let s := sampleShot layer row acc.2
      (acc.1 ++ [s.1], s.2))
    ([], g)

/-- Empirical frequency with which atom i is excited across the shots. -/
def atomMarginal (shots : List (List Bool)) (i : Nat) : ℚ :=
  ((shots.countP (fun s => s.getD i false) : Nat) : ℚ) / ((shots.length : Nat) : ℚ)

/-- Empirical frequency with which atoms i and j are both excited. -/
def pairJoint (shots : List (List Bool)) (i j : Nat) : ℚ :=
  ((shots.countP (fun s => s.getD i false && s.getD j false) : Nat) : ℚ)
    / ((shots.length : Nat) : ℚ)

/-- Modelled from the spec (section 4.5): the probability readout returns
the per-atom marginals; the correlation readout appends, for every pair
i < j, the joint excited-excited frequency minus the product of the
marginals. -/
def readout (layer : DetuningLayer) (shots : List (List Bool)) : List ℚ :=
  let n := layer.config.n_atoms
  let marginals := (List.range n).map (atomMarginal shots)
  if layer.config.readout_type = "correlation" then
    marginals ++ ((List.range n).flatMap
      (fun i => ((List.range n).filter (fun j => i < j)).map
        (fun j => pairJoint shots i j - atomMarginal shots i * atomMarginal shots j)))
  else marginals

/-- Modelled from the spec (section 4.6): one sample is processed by
evolving, sampling n_shots shots and reducing them to the embedding
vector; the generator state advances. -/
def applySample (layer : DetuningLayer) (row : List ℚ) (n_shots : Nat) (g : Nat) :
    List ℚ × Nat :=
  let s := sampleShots layer row n_shots g
  (readout layer s.1, s.2)

/-- Modelled from the spec (section 4.6): apply_layer processes the rows of
x in order, collecting one embedding vector per row. Its documented
signature is apply_layer(x, n_shots, show_progress); the ambient global
generator state (seeded once in main.py lines 50-52) is passed and
returned explicitly because the embedding has no global state, and the
layer is returned unchanged alongside the result, mirroring that the
method leaves the layer configuration and precomputed state intact.
show_progress only controls progress reporting and does not enter the
result. -/
def apply_layer (layer : DetuningLayer) (x : Mat) (n_shots : Nat)
    (show_progress : Bool) (g : Nat) : Mat × DetuningLayer × Nat :=
  let folded := x.foldl
    (fun (acc : Mat × Nat) row =>
      let e := applySample layer row n_shots acc.2
      (acc.1 ++ [e.1], e.2))
    ([], g)
  (folded.1, layer, folded.2)

/-- The embedding matrix of one apply_layer call as a function of the seed
the global generator was set to, the input matrix and the shot count. -/
def embeddingsFromSeed (layer : DetuningLayer) (seed : Nat) (x : Mat)
    (n_shots : Nat) (show_progress : Bool) : Mat :=
  (apply_layer layer x n_shots show_progress (seedRng seed)).1

/-! ## The main pipeline around the quantum layer (main.py) -/

/-- The command-line arguments of main.py that feed the quantum-layer part
of the pipeline, transcribed from the uses in main.py lines 49-294. -/
structure MainArgs where
  seed : Nat
  dim_reduction : Nat
  geometry : String
  lattice_spacing : ℚ
  rabi_freq : ℚ
  evolution_time : ℚ
  time_steps : Nat
  readout_type : String
  encoding_scale : ℚ
  detuning_max : ℚ
  n_shots : Nat
  no_progress : Bool
deriving DecidableEq, Repr

/-- Modelled from the spec: feature_reduction.py is not under src/. The
reduction (PCA or autoencoder, spec sections 1 and 3) maps each sample to a
vector of dim_reduction features; it is modelled as taking the first
dim_reduction entries of each flattened sample, padding with zero. Only the
output shape feeds the claims below. -/
def reduceFeatures (raw : Mat) (dim : Nat) : Mat :=
  raw.map (fun row => (List.range dim).map (fun i => row.getD i 0))

/-- Modelled from the spec: the spectral-range scalar returned by the
reduction step (spec section 6) is modelled as the largest absolute entry
of the reduced training features. -/
def spectralRange (m : Mat) : ℚ :=
  m.foldl (fun a row => row.foldl (fun b v => max b |v|) a) 0

/-- Modelled from the spec: scale_to_detuning_range lives in
feature_reduction.py, which is not under src/. Spec section 6 specifies
that the scaled values lie within [-detuning_max, +detuning_max], so the
scaling is modelled as the linear map by detuning_max / spectral clamped to
that interval. -/
def scale_to_detuning_range (x : Mat) (spectral : ℚ) (dmax : ℚ) : Mat :=
  x.map (fun row => row.map (fun v => max (-dmax) (min dmax (v * dmax / spectral))))

/-- The quantum-layer part of one run of main, as data: the scaled feature
matrices, the constructed layer, the layer value used by each of the two
apply_layer calls, and the two embedding matrices. -/
structure MainQuantumTrace where
  xs : Mat
  test_features : Mat
  layer : DetuningLayer
  layerPrinted : List LayerConfig
  embeddings : Mat
  test_embeddings : Mat
  layerAfterTrain : DetuningLayer
  layerAfterTest : DetuningLayer
  rngAfter : Nat
deriving DecidableEq, Repr

/-- The quantum-layer data flow of main.py (lines 49-294): seed the global
generators once (lines 50-52), reduce the features to dim_reduction
dimensions, scale both matrices with scale_to_detuning_range and the
configured detuning_max (lines 252 and 256), construct the DetuningLayer
with n_atoms = dim_reduction and no print_params argument (lines 263-272),
then call apply_layer on the training matrix (lines 283-287) and on the
test matrix (lines 290-294) with n_shots = args.n_shots and
show_progress = not args.no_progress. Returns none when construction
fails. -/
def mainQuantum (args : MainArgs) (raw_train raw_test : Mat) :
    Option MainQuantumTrace :=
  match DetuningLayer.constructDefault
      { geometry := args.geometry, n_atoms := args.dim_reduction,
        lattice_spacing := args.lattice_spacing, rabi_freq := args.rabi_freq,
        t_end := args.evolution_time, n_steps := args.time_steps,
        readout_type := args.readout_type,
        encoding_scale := args.encoding_scale } with
  | (none, _) => none
  | (some layer, printed) =>
    let xs := scale_to_detuning_range
      (reduceFeatures raw_train args.dim_reduction)
      (spectralRange (reduceFeatures raw_train args.dim_reduction))
      args.detuning_max
    let test_features := scale_to_detuning_range
      (reduceFeatures raw_test args.dim_reduction)
      (spectralRange (reduceFeatures raw_train args.dim_reduction))
      args.detuning_max
    let r1 := apply_layer layer xs args.n_shots (!args.no_progress)
      (seedRng args.seed)
    let r2 := apply_layer r1.2.1 test_features args.n_shots
      (!args.no_progress) r1.2.2
    some { xs := xs, test_features := test_features, layer := layer,
           layerPrinted := printed, embeddings := r1.1, test_embeddings := r2.1,
           layerAfterTrain := r1.2.1, layerAfterTest := r2.2.1,
           rngAfter := r2.2.2 }

/-! ## Concrete instances used by witnesses and counterexamples -/

/-- A concrete valid layer configuration: one atom on a chain. -/
def exampleConfig : LayerConfig :=
  { geometry := "chain", n_atoms := 1, lattice_spacing := 1, rabi_freq := 1,
    t_end := 1, n_steps := 10, readout_type := "probability",
    encoding_scale := 1 }

/-- The layer constructed from exampleConfig. -/
def exampleLayer : DetuningLayer :=
  ((DetuningLayer.construct exampleConfig false).1).getD
    { config := exampleConfig, atomCoords := [], interactions := [] }

/-- Concrete main arguments used to instantiate witnesses. -/
def exampleArgs : MainArgs :=
  { seed := 0, dim_reduction := 1, geometry := "chain", lattice_spacing := 1,
    rabi_freq := 1, evolution_time := 1, time_steps := 10,
    readout_type := "probability", encoding_scale := 1, detuning_max := 6,
    n_shots := 1, no_progress := false }

/-- The trace of the modelled main run at exampleArgs on one training and
one test sample. -/
def exampleTrace : MainQuantumTrace :=
  (mainQuantum exampleArgs [[2, 5]] [[3]]).getD
    { xs := [], test_features := [], layer := exampleLayer, layerPrinted := [],
      embeddings := [], test_embeddings := [],
      layerAfterTrain := exampleLayer, layerAfterTest := exampleLayer,
      rngAfter := 0 }

/-! ## LinearClassifier (models.py lines 6-38)

The forward pass is softmax(dim=1) applied to an affine map: a batch of m
input rows of n features becomes m rows of d class scores, each row sent
through the softmax. Real-number semantics embeds the float computation. -/

/-- Softmax over one row of d scores (models.py line 22, nn.Softmax(dim=1)). -/
noncomputable def softmaxRow (d : Nat) (z : Fin d → ℝ) : Fin d → ℝ :=
  fun j => Real.exp (z j) / ∑ k, Real.exp (z k)

/-- The affine map of nn.Linear (models.py line 21): weight matrix times the
input row plus the bias. -/
def linearLayer (n d : Nat) (W : Fin d → Fin n → ℝ) (b : Fin d → ℝ)
    (x : Fin n → ℝ) : Fin d → ℝ :=
  fun j => (∑ i, W j i * x i) + b j

/-- LinearClassifier.forward (models.py lines 24-38): softmax of the linear
layer, applied to each row of the input batch. -/
noncomputable def LinearClassifier.forward (m n d : Nat)
    (W : Fin d → Fin n → ℝ) (b : Fin d → ℝ) (x : Fin m → Fin n → ℝ) :
    Fin m → Fin d → ℝ :=
  fun r => softmaxRow d (linearLayer n d W b (x r))

/-! ## NeuralNetwork construction (models.py lines 40-102) -/

/-- A value usable as the activation module: one of the four built-in
modules the constructor can create, or an arbitrary module passed in by the
caller (identified by a tag). -/
inductive ActivationModule where
  | relu
  | leakyRelu
  | tanhMod
  | sigmoid
  | custom (tag : Nat)
deriving DecidableEq, Repr

/-- The activation argument of the NeuralNetwork constructor, of Python
type Union[str, nn.Module] (models.py line 61). -/
inductive ActivationArg where
  | ofString (s : String)
  | ofModule (m : ActivationModule)
deriving DecidableEq, Repr

/-- Python str.lower as invoked at models.py lines 68-74: the names it is
compared against are ASCII, so it maps each character through
Char.toLower. -/
def pyLower (s : String) : String := String.mk (s.data.map Char.toLower)

/-- The activation selection of NeuralNetwork.__init__ (models.py lines
66-79): a string argument is lowercased and compared against the four
known names, raising ValueError otherwise; a non-string argument is used
as the activation module unchecked. -/
def selectActivation : ActivationArg → Except String ActivationModule
  | .ofString s =>
    if pyLower s = "relu" then .ok .relu
    else if pyLower s = "leaky_relu" then .ok .leakyRelu
    else if pyLower s = "tanh" then .ok .tanhMod
    else if pyLower s = "sigmoid" then .ok .sigmoid
    else .error ("Unknown activation function: " ++ s)
  | .ofModule m => .ok m

/-- One layer of the nn.Sequential the constructor assembles (models.py
lines 81-102). -/
inductive NNLayer where
  | linear (inDim outDim : Nat)
  | batchNorm (dim : Nat)
  | activation (m : ActivationModule)
  | dropoutLayer (p : ℚ)
  | softmaxOut
deriving DecidableEq, Repr

/-- Equality of construction results is decidable. -/
instance : DecidableEq (Except String (List NNLayer)) := fun a b =>
  match a, b with
  | .error x, .error y => decidable_of_iff (x = y) (by simp)
  | .error _, .ok _ => isFalse (by simp)
  | .ok _, .error _ => isFalse (by simp)
  | .ok x, .ok y => decidable_of_iff (x = y) (by simp)

/-- Construction of the nn.Dropout module invoked at models.py line 94:
torch validates the probability at construction and raises ValueError
unless it lies in [0, 1]. -/
def dropoutModule (p : ℚ) : Except String NNLayer :=
  if 0 ≤ p ∧ p ≤ 1 then .ok (NNLayer.dropoutLayer p)
  else .error "dropout probability has to be between 0 and 1"

/-- One iteration of the hidden-layer loop of NeuralNetwork.__init__
(models.py lines 85-96): append a linear layer, optionally a batch norm,
the activation, and — when the dropout probability is positive — the
nn.Dropout module, whose construction can itself fail. -/
def nnStep (act : ActivationModule) (dropout : ℚ) (batch_norm : Bool) :
    Except String (List NNLayer × Nat) → Nat →
      Except String (List NNLayer × Nat)
  | .error e, _ => .error e
  | .ok (ls, prev), dim =>
    let ls := ls ++ [NNLayer.linear prev dim]
      ++ (if batch_norm then [NNLayer.batchNorm dim] else [])
      ++ [NNLayer.activation act]
    if 0 < dropout then
      match dropoutModule dropout with
      | .error e => .error e
      | .ok dl => .ok (ls ++ [dl], dim)
    else .ok (ls, dim)

/-- The layer assembly of NeuralNetwork.__init__ after the activation has
been selected (models.py lines 81-102): run the hidden-layer loop, then
append the output linear layer and the softmax. -/
def buildLayers (act : ActivationModule) (input_dim output_dim : Nat)
    (hidden_dims : List Nat) (dropout : ℚ) (batch_norm : Bool) :
    Except String (List NNLayer) :=
  match hidden_dims.foldl (nnStep act dropout batch_norm)
      (.ok ([], input_dim)) with
  | .error e => .error e
  | .ok (layers, prev) =>
    .ok (layers ++ [NNLayer.linear prev output_dim, NNLayer.softmaxOut])

/-- NeuralNetwork.__init__ (models.py lines 59-102): select the activation,
then assemble the layer list; either step can raise ValueError. -/
def NeuralNetwork.init (input_dim output_dim : Nat) (hidden_dims : List Nat)
    (activation : ActivationArg) (dropout : ℚ) (batch_norm : Bool) :
    Except String (List NNLayer) :=
  match selectActivation activation with
  | .error e => .error e
  | .ok act =>
    buildLayers act input_dim output_dim hidden_dims dropout batch_norm

/-! ## QRCModel (models.py lines 120-169) -/

/-- What the classifier attribute of QRCModel can hold after construction:
the LinearClassifier class object itself, or a classifier instance passed
by the caller (identified by a tag). -/
inductive ClassifierAttr where
  | classObject
  | instOf (tag : Nat)
deriving DecidableEq, Repr

/-- The QRCModel state after construction. -/
structure QRCModel where
  quantum_layer : DetuningLayer
  classifier : ClassifierAttr
deriving DecidableEq, Repr

/-- QRCModel.__init__ (models.py lines 131-133): the classifier attribute is
the argument when one is given and otherwise the LinearClassifier class
object itself (the source binds the class, not an instance of it). -/
def QRCModel.init (quantum_layer : DetuningLayer)
    (classifier : Option Nat) : QRCModel :=
  { quantum_layer := quantum_layer,
    classifier := match classifier with
      | some tag => ClassifierAttr.instOf tag
      | none => ClassifierAttr.classObject }

/-- Modelled from the spec: the defaults that apply_layer supplies for
n_shots and show_progress when a caller omits them are defined in
qrc_layer.py, which is not under src/; their concrete values do not enter
any claim settled here. -/
def applyLayerDefaultNShots : Nat := 1000

/-- Modelled from the spec: default progress flag of apply_layer, see
applyLayerDefaultNShots. -/
def applyLayerDefaultShowProgress : Bool := true

/-- QRCModel.fit (models.py lines 135-169): compute the quantum embeddings
of the training and the test features by calling apply_layer with only the
input matrix (lines 163 and 166; n_shots and show_progress fall back to
their defaults), then hand the embeddings to the external training
function. The training function of training.py is not under src/ and is
taken as a parameter; the ambient generator state is threaded explicitly. -/
def QRCModel.fit {α : Type} (trainFn : Mat → Mat → Mat → Mat → α)
    (m : QRCModel) (g : Nat) (x_train y_train x_test y_test : Mat) :
    α × Nat :=
  let r1 := apply_layer m.quantum_layer x_train applyLayerDefaultNShots
    applyLayerDefaultShowProgress g
  let r2 := apply_layer m.quantum_layer x_test applyLayerDefaultNShots
    applyLayerDefaultShowProgress r1.2.2
  (trainFn r1.1 y_train r2.1 y_test, r2.2.2)

/-! ## Helper lemmas -/

/-- A successful construction returns a layer carrying exactly the
configuration it was given. -/
theorem construct_some_config (cfg : LayerConfig) (p : Bool)
    (l : DetuningLayer) (pr : List LayerConfig)
    (h : DetuningLayer.construct cfg p = (some l, pr)) : l.config = cfg := by
  unfold DetuningLayer.construct at h
  cases hg : geometryBuilder cfg.geometry cfg.n_atoms cfg.lattice_spacing with
  | none => rw [hg] at h; simp at h
  | some coords =>
    rw [hg] at h
    simp only [Prod.mk.injEq, Option.some.injEq] at h
    rw [← h.1]

/-- Every row of a reduced-then-scaled matrix has exactly the reduction
dimension many entries. -/
theorem scale_reduce_row_length (raw : Mat) (dim : Nat) (spectral dmax : ℚ) :
    ∀ row ∈ scale_to_detuning_range (reduceFeatures raw dim) spectral dmax,
      row.length = dim := by
  intro row hrow
  unfold scale_to_detuning_range reduceFeatures at hrow
  simp only [List.map_map, List.mem_map] at hrow
  obtain ⟨r0, _, rfl⟩ := hrow
  simp

/-- Every entry of a scaled matrix lies within the detuning interval when
detuning_max is non-negative. -/
theorem scale_entry_mem_range (x : Mat) (spectral dmax : ℚ) (hd : 0 ≤ dmax) :
    ∀ row ∈ scale_to_detuning_range x spectral dmax, ∀ v ∈ row,
      -dmax ≤ v ∧ v ≤ dmax := by
  intro row hrow v hv
  unfold scale_to_detuning_range at hrow
  simp only [List.mem_map] at hrow
  obtain ⟨r0, _, rfl⟩ := hrow
  simp only [List.mem_map] at hv
  obtain ⟨w, _, rfl⟩ := hv
  refine ⟨le_max_left _ _, max_le (by linarith) (min_le_left _ _)⟩

/-- The hidden-layer loop propagates an error unchanged. -/
theorem nnStep_foldl_error (act : ActivationModule) (dropout : ℚ) (bn : Bool)
    (l : List Nat) (e : String) :
    l.foldl (nnStep act dropout bn) (.error e) = .error e := by
  induction l with
  | nil => rfl
  | cons d t ih => exact ih

/-- When the dropout probability does not exceed 1, the hidden-layer loop
never fails. -/
theorem nnStep_foldl_ok (act : ActivationModule) (dropout : ℚ) (bn : Bool)
    (hdrop : ¬ 1 < dropout) (l : List Nat) :
    ∀ ls prev, ∃ ls' prev',
      l.foldl (nnStep act dropout bn) (.ok (ls, prev)) = .ok (ls', prev') := by
  induction l with
  | nil => exact fun ls prev => ⟨ls, prev, rfl⟩
  | cons d t ih =>
    intro ls prev
    have hstep : ∃ ls2, nnStep act dropout bn (.ok (ls, prev)) d =
        .ok (ls2, d) := by
      unfold nnStep dropoutModule
      by_cases h0 : 0 < dropout
      · simp [h0, le_of_lt h0, not_lt.mp hdrop]
      · simp [h0]
    obtain ⟨ls2, hstep⟩ := hstep
    rw [List.foldl_cons, hstep]
    exact ih ls2 d

/-- The layer assembly fails exactly when there is at least one hidden
layer and the dropout probability exceeds 1 (so that the nn.Dropout
construction at models.py line 94 is reached and rejects it). -/
theorem buildLayers_error_iff (act : ActivationModule)
    (input_dim output_dim : Nat) (hidden_dims : List Nat) (dropout : ℚ)
    (bn : Bool) :
    (∃ e, buildLayers act input_dim output_dim hidden_dims dropout bn =
      .error e) ↔ (hidden_dims ≠ [] ∧ 1 < dropout) := by
  constructor
  · rintro ⟨e, he⟩
    by_contra hcon
    rw [not_and_or, not_not, not_lt] at hcon
    rcases hcon with h | h
    · subst h
      simp [buildLayers] at he
    · obtain ⟨ls', prev', hok⟩ :=
        nnStep_foldl_ok act dropout bn (not_lt.mpr h) hidden_dims [] input_dim
      unfold buildLayers at he
      rw [hok] at he
      simp at he
  · rintro ⟨hne, hdrop⟩
    cases hidden_dims with
    | nil => exact absurd rfl hne
    | cons d t =>
      have h0 : 0 < dropout := lt_trans one_pos hdrop
      have hstep : nnStep act dropout bn (.ok ([], input_dim)) d =
          .error "dropout probability has to be between 0 and 1" := by
        unfold nnStep dropoutModule
        simp [h0, not_le.mpr hdrop]
      unfold buildLayers
      rw [List.foldl_cons, hstep, nnStep_foldl_error]
      exact ⟨_, rfl⟩

/-! ## Claims -/

/-- C1 (amended): apply_layer is the only data-bearing entry point of the
quantum layer and has the documented signature
apply_layer(x, n_shots, show_progress); the two calls in main.py supply an
input matrix, an integer shot count and a boolean progress flag conforming
to this signature, but the two calls in QRCModel.fit (models.py lines 163
and 166) supply only the input matrix, leaving n_shots and show_progress
to their defaults. -/
theorem C1_call_arguments :
    ((layerEntryPoints.filter (fun e => e.dataBearing)).map
      (fun e => e.name)) = ["apply_layer"] ∧
    applyLayerSignatureParams = ["x", "n_shots", "show_progress"] ∧
    applyLayerCallSites.length = 4 ∧
    (applyLayerCallSites.all fun c => c.suppliesX) = true ∧
    ((applyLayerCallSites.filter (fun c => c.file = "src/main.py")).all
      (fun c => c.suppliesNShots && c.suppliesShowProgress)) = true ∧
    ((applyLayerCallSites.filter (fun c => c.file = "src/models.py")).all
      (fun c => !c.suppliesNShots && !c.suppliesShowProgress)) = true := by
  decide

/-- C1 (counterexample): not every call the program makes to apply_layer
supplies an n_shots and a show_progress argument — the calls in
QRCModel.fit supply only the input matrix. -/
theorem C1_counterexample :
    ¬ (∀ c ∈ applyLayerCallSites,
        c.suppliesNShots = true ∧ c.suppliesShowProgress = true) := by
  decide

/-- C2 (amended): the embedding matrix is a function of the seed the global
generator was set to, the input matrix, the shot count and the progress
flag alone: apply_layer calls made from the generator state produced by
the same fixed seed with identical inputs and identical n_shots produce
identical (bitwise-equal) embedding matrices. Successive calls within one
run, by contrast, advance the shared generator state and need not
coincide. -/
theorem C2_determinism_under_reseeding
    (layer : DetuningLayer) (s₁ s₂ : Nat) (x₁ x₂ : Mat) (n₁ n₂ : Nat)
    (p₁ p₂ : Bool) (hs : s₁ = s₂) (hx : x₁ = x₂) (hn : n₁ = n₂)
    (hp : p₁ = p₂) :
    embeddingsFromSeed layer s₁ x₁ n₁ p₁ =
      embeddingsFromSeed layer s₂ x₂ n₂ p₂ := by
  rw [hs, hx, hn, hp]

/-- Witness for C2 at seed 0 on a concrete layer and input. -/
theorem C2_witness :
    embeddingsFromSeed exampleLayer 0 [[0]] 1 true =
      embeddingsFromSeed exampleLayer 0 [[0]] 1 true :=
  C2_determinism_under_reseeding exampleLayer 0 0 [[0]] [[0]] 1 1 true true
    rfl rfl rfl rfl

section ConcreteEvaluation

attribute [local semireducible] Rat.mul Rat.add Rat.inv

/-- C2 (counterexample): with the global generator seeded once from seed 0
(as main.py lines 50-52 do), two successive apply_layer calls on the
identical input matrix with the identical shot count return different
embedding matrices, because the first call advances the shared generator
state. -/
theorem C2_counterexample :
    (apply_layer exampleLayer [[0]] 1 true (seedRng 0)).1 ≠
      (apply_layer exampleLayer [[0]] 1 true
        (apply_layer exampleLayer [[0]] 1 true (seedRng 0)).2.2).1 := by
  decide

/-- C3 (amended): no explicit random-source handle is threaded through
apply_layer — no call site passes one and the documented signature has no
parameter for one; the measurement randomness comes from the ambient
global generator state seeded once in main, and the embeddings returned by
apply_layer vary with that ambient state. -/
theorem C3_ambient_rng_not_a_handle :
    (applyLayerCallSites.all fun c => !c.suppliesRngHandle) = true ∧
    applyLayerSignatureParams = ["x", "n_shots", "show_progress"] ∧
    ∃ g₁ g₂ : Nat,
      (apply_layer exampleLayer [[0]] 1 false g₁).1 ≠
        (apply_layer exampleLayer [[0]] 1 false g₂).1 :=
  ⟨by decide, rfl, 0, 2 ^ 30, by decide⟩

/-- C3 (counterexample): two program states that differ only in the ambient
global generator state yield different embeddings from apply_layer on the
same inputs, so the embeddings are not invariant to the ambient state. -/
theorem C3_counterexample :
    (apply_layer exampleLayer [[0]] 1 false 0).1 ≠
      (apply_layer exampleLayer [[0]] 1 false (2 ^ 30)).1 := by
  decide

end ConcreteEvaluation

/-- C4 (amended): DetuningLayer construction performs no observable output
apart from printing its parameter summary when print_params is true, which
is the default used by the construction in main.py lines 263-272; with
print_params false (as passed at main.py line 182) it prints nothing. -/
theorem C4_construction_output (cfg : LayerConfig) :
    (DetuningLayer.construct cfg false).2 = [] ∧
    (DetuningLayer.constructDefault cfg).2 = [cfg] := by
  unfold DetuningLayer.constructDefault DetuningLayer.construct
  cases geometryBuilder cfg.geometry cfg.n_atoms cfg.lattice_spacing <;> simp

/-- C4 (counterexample): constructing a DetuningLayer from the valid
exampleConfig without a print_params argument, as main.py lines 263-272
do, prints the parameter summary — the observable output is nonempty. -/
theorem C4_counterexample :
    (DetuningLayer.constructDefault exampleConfig).2 ≠ [] := by
  decide

/-- C5: in every execution path of the modelled main, the quantum layer is
constructed with n_atoms equal to the reduction dimension, and every row
of either matrix passed to apply_layer has exactly that many columns. -/
theorem C5_n_atoms_matches_input_width (args : MainArgs)
    (raw_train raw_test : Mat) :
    ∀ trace ∈ mainQuantum args raw_train raw_test,
      trace.layer.config.n_atoms = args.dim_reduction ∧
      (∀ row ∈ trace.xs, row.length = args.dim_reduction) ∧
      (∀ row ∈ trace.test_features, row.length = args.dim_reduction) := by
  intro trace htrace
  rw [Option.mem_def] at htrace
  unfold mainQuantum at htrace
  split at htrace
  · exact absurd htrace (by simp)
  next layer printed hcon =>
    simp only [Option.some.injEq] at htrace
    subst htrace
    refine ⟨?_, ?_, ?_⟩
    · rw [construct_some_config _ _ _ _ hcon]
    · exact scale_reduce_row_length raw_train args.dim_reduction _ _
    · exact scale_reduce_row_length raw_test args.dim_reduction _ _

/-- C6: apply_layer leaves the layer configuration and the precomputed
geometry and interaction state unchanged, and the modelled main uses one
and the same layer value for the training call and for the test call. -/
theorem C6_layer_reuse_and_immutability :
    (∀ (l : DetuningLayer) (x : Mat) (n : Nat) (p : Bool) (g : Nat),
      (apply_layer l x n p g).2.1 = l) ∧
    (∀ (args : MainArgs) (raw_train raw_test : Mat),
      ∀ trace ∈ mainQuantum args raw_train raw_test,
        trace.layerAfterTrain = trace.layer ∧
        trace.layerAfterTest = trace.layer) := by
  constructor
  · intro l x n p g
    rfl
  · intro args raw_train raw_test trace htrace
    rw [Option.mem_def] at htrace
    unfold mainQuantum at htrace
    split at htrace
    · exact absurd htrace (by simp)
    next layer printed hcon =>
      simp only [Option.some.injEq] at htrace
      subst htrace
      exact ⟨rfl, rfl⟩

/-- C7: every matrix the modelled main passes to apply_layer is the output
of scale_to_detuning_range applied with the configured detuning_max, and
(detuning_max being non-negative) every entry of those matrices lies
within the interval from -detuning_max to detuning_max. -/
theorem C7_inputs_scaled_to_range (args : MainArgs)
    (raw_train raw_test : Mat) (hdmax : 0 ≤ args.detuning_max) :
    ∀ trace ∈ mainQuantum args raw_train raw_test,
      trace.xs =
        scale_to_detuning_range (reduceFeatures raw_train args.dim_reduction)
          (spectralRange (reduceFeatures raw_train args.dim_reduction))
          args.detuning_max ∧
      trace.test_features =
        scale_to_detuning_range (reduceFeatures raw_test args.dim_reduction)
          (spectralRange (reduceFeatures raw_train args.dim_reduction))
          args.detuning_max ∧
      (∀ row ∈ trace.xs, ∀ v ∈ row,
        -args.detuning_max ≤ v ∧ v ≤ args.detuning_max) ∧
      (∀ row ∈ trace.test_features, ∀ v ∈ row,
        -args.detuning_max ≤ v ∧ v ≤ args.detuning_max) := by
  intro trace htrace
  rw [Option.mem_def] at htrace
  unfold mainQuantum at htrace
  split at htrace
  · exact absurd htrace (by simp)
  next layer printed hcon =>
    simp only [Option.some.injEq] at htrace
    subst htrace
    exact ⟨rfl, rfl,
      scale_entry_mem_range _ _ _ hdmax,
      scale_entry_mem_range _ _ _ hdmax⟩

/-- C8: LinearClassifier.forward is the softmax over dimension 1 of an
affine map of the input: on a batch of m input rows it returns m rows of
output_dim entries in which every entry is non-negative and every row sums
to 1 (the output dimension being positive, as a classifier has at least
one class). -/
theorem C8_forward_is_row_stochastic (m n d : Nat) (hd : 0 < d)
    (W : Fin d → Fin n → ℝ) (b : Fin d → ℝ) (x : Fin m → Fin n → ℝ)
    (r : Fin m) :
    (∀ j, 0 ≤ LinearClassifier.forward m n d W b x r j) ∧
    (∑ j, LinearClassifier.forward m n d W b x r j) = 1 := by
  have hne : Nonempty (Fin d) := ⟨⟨0, hd⟩⟩
  have hpos : 0 < ∑ k, Real.exp (linearLayer n d W b (x r) k) :=
    Finset.sum_pos (fun k _ => Real.exp_pos _) Finset.univ_nonempty
  constructor
  · intro j
    exact div_nonneg (Real.exp_pos _).le hpos.le
  · simp only [LinearClassifier.forward, softmaxRow]
    rw [← Finset.sum_div, div_self hpos.ne']

/-- Witness for C8 at a concrete one-class classifier on one input row. -/
theorem C8_witness :
    (∀ j, 0 ≤ LinearClassifier.forward 1 1 1 (fun _ _ => 0) (fun _ => 0)
        (fun _ _ => 0) 0 j) ∧
    (∑ j, LinearClassifier.forward 1 1 1 (fun _ _ => 0) (fun _ => 0)
        (fun _ _ => 0) 0 j) = 1 :=
  C8_forward_is_row_stochastic 1 1 1 (by decide) (fun _ _ => 0) (fun _ => 0)
    (fun _ _ => 0) 0

/-- C9 (amended): NeuralNetwork construction raises ValueError exactly when
the activation argument is a string whose lowercasing is none of relu,
leaky_relu, tanh and sigmoid, or when the dropout probability exceeds 1
and there is at least one hidden layer (the positive-dropout branch then
constructs nn.Dropout, which rejects a probability outside [0, 1]); a
non-string activation argument is accepted unchecked and becomes the
activation module. -/
theorem C9_activation_validation (input_dim output_dim : Nat)
    (hidden_dims : List Nat) (dropout : ℚ) (batch_norm : Bool)
    (a : ActivationArg) :
    ((∃ e, NeuralNetwork.init input_dim output_dim hidden_dims a dropout
        batch_norm = .error e) ↔
      ((∃ s, a = ActivationArg.ofString s ∧
        pyLower s ∉ ["relu", "leaky_relu", "tanh", "sigmoid"]) ∨
       (hidden_dims ≠ [] ∧ 1 < dropout))) ∧
    (∀ m, selectActivation (ActivationArg.ofModule m) = .ok m) := by
  constructor
  · cases a with
    | ofModule m =>
      simp only [NeuralNetwork.init, selectActivation]
      rw [buildLayers_error_iff]
      simp
    | ofString s =>
      simp only [NeuralNetwork.init, selectActivation]
      split_ifs with h1 h2 h3 h4
      · rw [buildLayers_error_iff]; simp_all
      · rw [buildLayers_error_iff]; simp_all
      · rw [buildLayers_error_iff]; simp_all
      · rw [buildLayers_error_iff]; simp_all
      · simp_all
  · intro m
    rfl

section

attribute [local semireducible] Rat.mul Rat.add Rat.inv

/-- C9 (counterexample): with the valid activation string relu, one hidden
layer and dropout probability 2, construction fails — nn.Dropout rejects a
probability above 1 — although the activation string lowercases to one of
the four known names, so the original biconditional is false. -/
theorem C9_counterexample :
    NeuralNetwork.init 10 2 [100] (ActivationArg.ofString "relu") 2 false =
      .error "dropout probability has to be between 0 and 1" ∧
    pyLower "relu" ∈ ["relu", "leaky_relu", "tanh", "sigmoid"] := by
  decide

end

/-- C10: a QRCModel constructed with classifier = None binds its classifier
attribute to the LinearClassifier class object itself rather than to an
instance of it, and QRCModel.fit never reads the classifier attribute: two
models sharing the quantum layer but differing in the classifier give
identical fit results. -/
theorem C10_classifier_default_and_fit_independence :
    (∀ q, (QRCModel.init q none).classifier = ClassifierAttr.classObject) ∧
    (∀ q tag, (QRCModel.init q (some tag)).classifier =
      ClassifierAttr.instOf tag) ∧
    (∀ (α : Type) (trainFn : Mat → Mat → Mat → Mat → α) q c₁ c₂ g
        x_train y_train x_test y_test,
      QRCModel.fit trainFn { quantum_layer := q, classifier := c₁ } g
          x_train y_train x_test y_test =
        QRCModel.fit trainFn { quantum_layer := q, classifier := c₂ } g
          x_train y_train x_test y_test) :=
  ⟨fun _ => rfl, fun _ _ => rfl,
   fun _ _ _ _ _ _ _ _ _ _ => rfl⟩

section

attribute [local semireducible] Rat.mul Rat.add Rat.inv

/-- Witness for C5 at the concrete example arguments and data. -/
theorem C5_witness :
    exampleTrace.layer.config.n_atoms = exampleArgs.dim_reduction ∧
    (∀ row ∈ exampleTrace.xs, row.length = exampleArgs.dim_reduction) ∧
    (∀ row ∈ exampleTrace.test_features,
      row.length = exampleArgs.dim_reduction) :=
  C5_n_atoms_matches_input_width exampleArgs [[2, 5]] [[3]] exampleTrace
    (Option.mem_def.mpr (by decide))

/-- Witness for C6 at the concrete example layer, arguments and data. -/
theorem C6_witness :
    (apply_layer exampleLayer [[0]] 1 true 0).2.1 = exampleLayer ∧
    (exampleTrace.layerAfterTrain = exampleTrace.layer ∧
     exampleTrace.layerAfterTest = exampleTrace.layer) :=
  ⟨C6_layer_reuse_and_immutability.1 exampleLayer [[0]] 1 true 0,
   C6_layer_reuse_and_immutability.2 exampleArgs [[2, 5]] [[3]] exampleTrace
     (Option.mem_def.mpr (by decide))⟩

/-- Witness for C7 at the concrete example arguments and data. -/
theorem C7_witness :
    exampleTrace.xs =
      scale_to_detuning_range (reduceFeatures [[2, 5]] exampleArgs.dim_reduction)
        (spectralRange (reduceFeatures [[2, 5]] exampleArgs.dim_reduction))
        exampleArgs.detuning_max ∧
    exampleTrace.test_features =
      scale_to_detuning_range (reduceFeatures [[3]] exampleArgs.dim_reduction)
        (spectralRange (reduceFeatures [[2, 5]] exampleArgs.dim_reduction))
        exampleArgs.detuning_max ∧
    (∀ row ∈ exampleTrace.xs, ∀ v ∈ row,
      -exampleArgs.detuning_max ≤ v ∧ v ≤ exampleArgs.detuning_max) ∧
    (∀ row ∈ exampleTrace.test_features, ∀ v ∈ row,
      -exampleArgs.detuning_max ≤ v ∧ v ≤ exampleArgs.detuning_max) :=
  C7_inputs_scaled_to_range exampleArgs [[2, 5]] [[3]] (by decide) exampleTrace
    (Option.mem_def.mpr (by decide))

end

end QRC
